import Mathlib

/-!
Shallow embedding of the MentorX frontend (`src/frontend/app/page.tsx`) and,
where the repository ships only the frontend, a spec-modelled backend core
(Score Normalizer, Weighted Aggregator, `/analyze` endpoint).

JavaScript numbers are modelled by `ℚ`: every computation the theorems touch
(byte-size division by `1024 * 1024`, score arithmetic on small decimals,
comparisons against integer thresholds) is exact in IEEE doubles for the
relevant range, so the rational model agrees with the source.
-/

namespace MentorX

/-! ## Response data model (interfaces `PipelineResults`, `AnalysisResult`)

The TypeScript interfaces declare the fields as present, but every access in
the component goes through optional chaining (`pipelines?.content?... ?? 0`),
so the runtime shape lets any level be absent; `Option` records that. -/

structure VisualDetails where
  engagement : ℚ
  energy : ℚ
deriving DecidableEq

structure VisualResult where
  visual_score : ℚ
  details : VisualDetails
deriving DecidableEq

structure AudioDetails where
  pace_bpm : ℚ
  silence_ratio : ℚ
deriving DecidableEq

structure AudioResult where
  prosody_score : ℚ
  details : AudioDetails
deriving DecidableEq

structure ContentResult where
  content_score : ℚ
  accuracy_score : ℚ
  structure_score : ℚ
  key_strengths : Option (List String)
  missing_concepts : Option (List String)
deriving DecidableEq

structure PipelineResults where
  visual : Option VisualResult
  audio : Option AudioResult
  content : Option ContentResult
deriving DecidableEq

structure AnalysisResult where
  overall_score : ℚ
  pipelines : Option PipelineResults
  transcript : String
deriving DecidableEq

/-! ## Component state and the analyze handler -/

/-- A browser `File` object: only the fields the component reads. -/
structure JsFile where
  name : String
  size : ℕ
deriving DecidableEq

/-- The five `useState` slots of the `Home` component. -/
structure ComponentState where
  file : Option JsFile
  previewUrl : Option String
  loading : Bool
  result : Option AnalysisResult
  error : Option String
deriving DecidableEq

/-- The request `handleAnalyze` dispatches: `axios.post(backendUrl + "/analyze", formData)`
with form fields `file` and `topic`. -/
structure AnalyzeRequest where
  path : String
  file : JsFile
  topic : String
deriving DecidableEq

/-- How the awaited `axios.post` settles, as discriminated in the `catch` block:
a 2xx response with data, a non-2xx response (`err.response`), a request with
no response (`err.request`), or anything else (`err.message`). -/
inductive HttpOutcome where
  | ok (data : AnalysisResult)
  | httpError (status : ℕ) (detail : Option String)
  | networkError
  | otherError (message : String)
deriving DecidableEq

/-- `const MAX_FILE_SIZE_MB = 30`. -/
def MAX_FILE_SIZE_MB : ℚ := 30

/-- `const fileSizeMB = file.size / (1024 * 1024)`. -/
def fileSizeMB (f : JsFile) : ℚ := (f.size : ℚ) / (1024 * 1024)

/-- JavaScript `Number.prototype.toFixed(1)` for the non-negative sizes the
component formats: round to one decimal, half away from zero. -/
def toFixed1 (q : ℚ) : String :=
  let n : ℤ := ⌊q * 10 + 1 / 2⌋
  toString (n / 10) ++ "." ++ toString ((n % 10).natAbs)

/-- The proactive size-check message (template literal in `handleAnalyze`). -/
def fileTooLargeMsg (f : JsFile) : String :=
  "⚠️ File is too large (" ++ toFixed1 (fileSizeMB f) ++ " MB). The limit is "
    ++ toString (30 : ℕ) ++ "MB. Please trim or compress the video."

/-- The 413 branch of the reactive error handling. -/
def uploadTooLarge413Msg : String :=
  "❌ Upload Failed: Video is too large for the server (Limit: 32MB). Please compress or trim it."

/-- The 503/504 branch of the reactive error handling. -/
def serverTimeoutMsg : String :=
  "❌ Server Timeout: The AI model took too long. Please try a shorter video (under 1 minute)."

/-- JavaScript `d || dflt` on an optional string: `undefined` and `""` are falsy. -/
def jsStringOr (d : Option String) (dflt : String) : String :=
  match d with
  | some s => if s = "" then dflt else s
  | none => dflt

/-- The generic branch: `` `❌ Server Error (${status}): ${detail || "Unknown error occurred"}` ``. -/
def serverErrorMsg (status : ℕ) (detail : Option String) : String :=
  "❌ Server Error (" ++ toString status ++ "): " ++ jsStringOr detail "Unknown error occurred"

/-- The `err.request` branch. -/
def networkErrorMsg : String :=
  "❌ Network Error: Could not connect to backend. The server might be waking up (Cold Start). Wait 10 seconds and try again."

/-- The final `else` branch: `` `❌ Error: ${err.message}` ``. -/
def otherErrorMsg (message : String) : String := "❌ Error: " ++ message

/-- First half of `handleAnalyze`, up to the `await`: the `if (!file) return`
guard, the proactive size pre-check (early return, no request), and otherwise
`setLoading(true); setError(null)` and the dispatch of the `/analyze` POST with
form fields `file` and `topic = "General Teaching"`. `Sum.inl` is an early
return with the final state; `Sum.inr` is the in-flight state plus the request
put on the wire. -/
def handleAnalyzeStart (s : ComponentState) : ComponentState ⊕ (ComponentState × AnalyzeRequest) :=
  match s.file with
  | none => Sum.inl s
  | some f =>
      if fileSizeMB f > MAX_FILE_SIZE_MB then
        Sum.inl { s with error := some (fileTooLargeMsg f) }
      else
        Sum.inr ({ s with loading := true, error := none },
                 { path := "/analyze", file := f, topic := "General Teaching" })

/-- Second half of `handleAnalyze`: the `try`/`catch`/`finally` once the POST
settles. Success stores `response.data`; `err.response` dispatches on the
status (413, then 503/504, then generic with the body's `detail`); then
`err.request`; then the generic message. `finally` always runs `setLoading(false)`. -/
def handleAnalyzeSettle (s : ComponentState) (o : HttpOutcome) : ComponentState :=
  let s1 :=
    match o with
    | .ok data => { s with result := some data }
    | .httpError status detail =>
        if status = 413 then { s with error := some uploadTooLarge413Msg }
        else if status = 503 ∨ status = 504 then { s with error := some serverTimeoutMsg }
        else { s with error := some (serverErrorMsg status detail) }
    | .networkError => { s with error := some networkErrorMsg }
    | .otherError m => { s with error := some (otherErrorMsg m) }
  { s1 with loading := false }

/-- Whole run of `handleAnalyze`: the state when the handler returns, and the
request it dispatched, if any. `o` is how the POST would settle; it is unused
on the early-return paths, which dispatch nothing. -/
def handleAnalyze (s : ComponentState) (o : HttpOutcome) : ComponentState × Option AnalyzeRequest :=
  match handleAnalyzeStart s with
  | Sum.inl s' => (s', none)
  | Sum.inr (sIn, req) => (handleAnalyzeSettle sIn o, some req)

/-! ## Results view: display defaults and the two fallback lists -/

/-- The presentation default `x ?? 0` used by every `MetricCard` score. -/
def displayScore (o : Option ℚ) : ℚ := o.getD 0

/-- `pipelines?.audio?.details?.pace_bpm` resolved through the optional chain. -/
def paceBpmOf (r : AnalysisResult) : Option ℚ :=
  (r.pipelines.bind fun p => p.audio).map fun a => a.details.pace_bpm

/-- The advisory guard `(pipelines?.audio?.details?.pace_bpm ?? 0) > 150`. -/
def paceAdvisoryShown (r : AnalysisResult) : Bool :=
  displayScore (paceBpmOf r) > 150

/-- `pipelines?.content?.key_strengths` resolved through the optional chain. -/
def keyStrengthsOf (r : AnalysisResult) : Option (List String) :=
  (r.pipelines.bind fun p => p.content).bind fun c => c.key_strengths

/-- `pipelines?.content?.missing_concepts` resolved through the optional chain. -/
def missingConceptsOf (r : AnalysisResult) : Option (List String) :=
  (r.pipelines.bind fun p => p.content).bind fun c => c.missing_concepts

/-- One rendered `<li>` of the results view. -/
inductive RenderedLi where
  | strengthLi (text : String)
  | noStrengthsFallback
  | conceptLi (text : String)
  | keepUpFallback
deriving DecidableEq

/-- JSX `expr || fallback` where `expr` is `xs?.map(...)`: `undefined` is falsy
so the fallback renders; an array — even an empty one — is truthy, so the
mapped items (possibly none at all) render and the fallback does not. -/
def jsListOrFallback (x : Option (List RenderedLi)) (fallback : RenderedLi) : List RenderedLi :=
  match x with
  | none => [fallback]
  | some xs => xs

/-- `key_strengths?.map(...) || <li>Analysis provided no specific strengths.</li>`. -/
def renderKeyStrengths (r : AnalysisResult) : List RenderedLi :=
  jsListOrFallback ((keyStrengthsOf r).map (List.map RenderedLi.strengthLi))
    RenderedLi.noStrengthsFallback

/-- `missing_concepts?.map(...) || <li>Keep up the great work!</li>`. -/
def renderMissingConcepts (r : AnalysisResult) : List RenderedLi :=
  jsListOrFallback ((missingConceptsOf r).map (List.map RenderedLi.conceptLi))
    RenderedLi.keepUpFallback

/-! ## Spec-modelled backend core

The repository ships only the frontend under `src/`; the Orchestrator, Score
Normalizer, Weighted Aggregator and the `/analyze` endpoint of spec sections
4.2–4.5 and 6 are not delivered. The definitions below model them from the
spec's words. -/

/-- Modelled from the spec: the three pipeline kinds (§2, Pipeline Adapter
"exactly three variants, no others"); the code for them is absent from src/. -/
inductive PipelineKind where
  | content
  | acoustic
  | visual
deriving DecidableEq

/-- Modelled from the spec: `ErrorKind` carried by a `Failed` outcome (§3);
absent from src/. Transient analyzer errors versus analyzer rejections (§7). -/
inductive ErrorKind where
  | transient
  | rejection
deriving DecidableEq

/-- Modelled from the spec: `PipelineOutcome`, the tagged variant
`Success(RawMetrics) | Failed(ErrorKind, message) | TimedOut` (§3);
absent from src/. `α` is the pipeline's `RawMetrics` schema. -/
inductive Outcome (α : Type) where
  | success (metrics : α)
  | failed (kind : ErrorKind) (message : String)
  | timedOut
deriving DecidableEq

/-- Modelled from the spec: Content `RawMetrics` — accuracy, structure,
strengths list, missing-concepts list (§3); absent from src/. -/
structure ContentMetrics where
  accuracy : ℚ
  structure_score : ℚ
  strengths : List String
  missingConcepts : List String
deriving DecidableEq

/-- Modelled from the spec: Acoustic `RawMetrics` — pace in BPM, silence
ratio, pitch variability (§3); absent from src/. -/
structure AcousticMetrics where
  pace_bpm : ℚ
  silence_ratio : ℚ
  pitch_variability : ℚ
deriving DecidableEq

/-- Modelled from the spec: Visual `RawMetrics` — engagement, energy,
posture openness (§3); absent from src/. -/
structure VisualMetrics where
  engagement : ℚ
  energy : ℚ
  posture_openness : ℚ
deriving DecidableEq

/-- Modelled from the spec: the settled `{kind -> PipelineOutcome}` mapping
the Orchestrator hands to the Normalizer (§4.3); absent from src/. -/
structure Outcomes where
  content : Outcome ContentMetrics
  acoustic : Outcome AcousticMetrics
  visual : Outcome VisualMetrics
deriving DecidableEq

/-- Modelled from the spec: clamp to `[0,10]` (§4.4 Content rule); absent from src/. -/
def clampScore (q : ℚ) : ℚ := max 0 (min 10 q)

/-- Modelled from the spec: Content sub-score, a blend of `accuracy_score`
and `structure_score` already on a 0–10 scale, clamped to `[0,10]` (§4.4);
absent from src/. The blend is taken with equal weights. -/
def contentScore (m : ContentMetrics) : ℚ :=
  clampScore ((m.accuracy + m.structure_score) / 2)

/-- Modelled from the spec: the ideal-pacing curve centered at 120 BPM —
`100–140 BPM = 10, decaying to 0 at 60 or 180 BPM`, linear decay outside the
optimal band (§4.4); absent from src/. -/
def pacingScore (pace : ℚ) : ℚ :=
  if pace < 60 then 0
  else if pace < 100 then 10 * (pace - 60) / 40
  else if pace ≤ 140 then 10
  else if pace ≤ 180 then 10 * (180 - pace) / 40
  else 0

/-- Modelled from the spec: the independent penalty term contributed by
`silence_ratio` (§4.4); absent from src/. The spec fixes no coefficient; the
penalty is taken proportional to the ratio, and it vanishes at ratio 0. -/
def silencePenalty (ratio : ℚ) : ℚ := 10 * ratio

/-- Modelled from the spec: Acoustic sub-score — silence penalty subtracted
from the pacing score, floor 0 (§4.4); absent from src/. -/
def acousticScore (m : AcousticMetrics) : ℚ :=
  max 0 (pacingScore m.pace_bpm - silencePenalty m.silence_ratio)

/-- Modelled from the spec: Visual sub-score — arithmetic mean of engagement
and energy, both already 0–10 (§4.4); absent from src/. -/
def visualScore (m : VisualMetrics) : ℚ :=
  (m.engagement + m.energy) / 2

/-- Modelled from the spec: the Normalizer's fallback policy (§4.4) — a
`Failed` or `TimedOut` outcome yields an absent sub-score, never a number;
absent from src/. -/
def normalizeWith {α : Type} (f : α → ℚ) : Outcome α → Option ℚ
  | .success m => some (f m)
  | .failed _ _ => none
  | .timedOut => none

/-- Modelled from the spec: the per-pipeline `NormalizedSubScore`, absent when
the pipeline's outcome is not `Success` (§4.4); absent from src/. -/
def subScore (os : Outcomes) : PipelineKind → Option ℚ
  | .content => normalizeWith contentScore os.content
  | .acoustic => normalizeWith acousticScore os.acoustic
  | .visual => normalizeWith visualScore os.visual

/-- The fixed enumeration of the three pipeline kinds. -/
def kinds : List PipelineKind := [.content, .acoustic, .visual]

/-- Modelled from the spec: the "missing" set consumed by the Aggregator
(§4.4); absent from src/. -/
def missingKinds (os : Outcomes) : List PipelineKind :=
  kinds.filter fun k => (subScore os k).isNone

/-- Whether a pipeline's outcome is `Failed` or `TimedOut` (not `Success`). -/
def Outcome.isAbsent {α : Type} : Outcome α → Bool
  | .success _ => false
  | .failed _ _ => true
  | .timedOut => true

/-- The outcome tag of one pipeline inside an `Outcomes` mapping. -/
def outcomeAbsent (os : Outcomes) : PipelineKind → Bool
  | .content => os.content.isAbsent
  | .acoustic => os.acoustic.isAbsent
  | .visual => os.visual.isAbsent

/-- Modelled from the spec: the immutable `Weights` configuration, one
non-negative weight per pipeline (§3); absent from src/. -/
structure Weights where
  content : ℚ
  acoustic : ℚ
  visual : ℚ
deriving DecidableEq

/-- Weight lookup by pipeline kind. -/
def Weights.get (w : Weights) : PipelineKind → ℚ
  | .content => w.content
  | .acoustic => w.acoustic
  | .visual => w.visual

/-- Modelled from the spec: default weights Content 0.35, Acoustic 0.35,
Visual 0.30 (§4.5); absent from src/. -/
def defaultWeights : Weights :=
  { content := 35 / 100, acoustic := 35 / 100, visual := 30 / 100 }

/-- Modelled from the spec: the `(weight, sub-score)` pairs of the pipelines
present in the complement of the missing set — exactly the terms the
Aggregator ranges over (§4.5); absent from src/. -/
def presentPairs (w : Weights) (os : Outcomes) : List (ℚ × ℚ) :=
  kinds.filterMap fun k => (subScore os k).map fun q => (w.get k, q)

/-- Modelled from the spec: the Weighted Aggregator (§4.5) —
`overall = Σ(weight_i × subscore_i) / Σ(weight_i)` over present pipelines
only, the denominator renormalizing over the remaining weights; with all
three pipelines missing, aggregation fails (`none`). Absent from src/. -/
def aggregate (w : Weights) (os : Outcomes) : Option ℚ :=
  let ps := presentPairs w os
  if ps.isEmpty then none
  else some ((ps.map fun p => p.1 * p.2).sum / (ps.map Prod.fst).sum)

/-- The zero-coercion aggregation the spec rejects (§9 design note): missing
sub-scores coerced to the number 0 with no weight renormalization. Stated
only to be compared with `aggregate`. -/
def aggregateZeroCoerced (w : Weights) (os : Outcomes) : ℚ :=
  (kinds.map fun k => w.get k * (subScore os k).getD 0).sum
    / (kinds.map w.get).sum

/-- Modelled from the spec: the `topic` form field is optional with default
`"General Teaching"` (§6); the endpoint is absent from src/. -/
def topicOrDefault (topic : Option String) : String :=
  topic.getD "General Teaching"

/-- A backend response: 200 with an overall score, or an error status with a
`detail` body. -/
inductive BackendResponse where
  | ok (overall : ℚ)
  | err (status : ℕ) (detail : String)
deriving DecidableEq

/-- Modelled from the spec: the `/analyze` endpoint (§6), absent from src/ —
a payload exceeding the size limit is rejected with 413 before orchestration
begins; otherwise orchestration runs and the aggregate is returned, with 500
when all three pipelines are missing. The `Bool` records whether orchestration
was dispatched. -/
def analyzeEndpoint (limit payload : ℕ) (os : Outcomes) : BackendResponse × Bool :=
  if payload > limit then
    (.err 413 "payload exceeds size limit", false)
  else
    match aggregate defaultWeights os with
    | none => (.err 500 "all pipelines failed or missing", true)
    | some v => (.ok v, true)

/-! ## Concrete values used by witnesses -/

/-- The §8 scenario response, parameterized by the reported pace. -/
def scenarioResult (pace : ℚ) : AnalysisResult :=
  { overall_score := 8
    pipelines := some
      { visual := some { visual_score := 15 / 2, details := { engagement := 7, energy := 8 } }
        audio := some { prosody_score := 15 / 2,
                        details := { pace_bpm := pace, silence_ratio := 1 / 20 } }
        content := some { content_score := 8, accuracy_score := 8, structure_score := 8,
                          key_strengths := some [], missing_concepts := some [] } }
    transcript := "Photosynthesis converts light energy into chemical energy." }

/-- A one-megabyte video file. -/
def smallFile : JsFile := { name := "lecture.mp4", size := 1024 * 1024 }

/-- A thirty-one-megabyte video file, above the 30 MB limit. -/
def bigFile : JsFile := { name := "long-lecture.mp4", size := 31 * 1024 * 1024 }

/-- Fresh component state holding a given selected file. -/
def stateWith (f : Option JsFile) : ComponentState :=
  { file := f, previewUrl := some "blob:demo", loading := false, result := none, error := none }

/-- Outcomes where Content and Acoustic succeeded and Visual timed out. -/
def exOutcomesOneMissing : Outcomes :=
  { content := .success { accuracy := 8, structure_score := 8, strengths := ["clear examples"],
                          missingConcepts := [] }
    acoustic := .success { pace_bpm := 120, silence_ratio := 0, pitch_variability := 1 }
    visual := .timedOut }

/-- Outcomes where the Acoustic pipeline failed. -/
def exOutcomesFailed : Outcomes :=
  { content := .success { accuracy := 9, structure_score := 7, strengths := [],
                          missingConcepts := ["recap"] }
    acoustic := .failed .transient "analyzer unavailable"
    visual := .success { engagement := 7, energy := 8, posture_openness := 6 } }

/-! ## Helper lemmas -/

/-- Inversion of the dispatching branch of `handleAnalyzeStart`: a request goes
on the wire only from the else branch, which fixes the in-flight state and the
request's fields. -/
lemma handleAnalyzeStart_inr_inv (s sIn : ComponentState) (req : AnalyzeRequest)
    (h : handleAnalyzeStart s = Sum.inr (sIn, req)) :
    s.file = some req.file ∧ ¬ fileSizeMB req.file > MAX_FILE_SIZE_MB ∧
      sIn = { s with loading := true, error := none } ∧
      req.path = "/analyze" ∧ req.topic = "General Teaching" := by
  obtain ⟨fileOpt, prev, load, res, err⟩ := s
  cases fileOpt with
  | none => exact absurd h (by simp [handleAnalyzeStart])
  | some f =>
      by_cases hsz : fileSizeMB f > MAX_FILE_SIZE_MB
      · exact absurd h (by simp [handleAnalyzeStart, hsz])
      · simp only [handleAnalyzeStart, hsz, if_false] at h
        obtain ⟨h1, h2⟩ := Prod.mk.inj (Sum.inr.inj h)
        subst h1; subst h2
        exact ⟨rfl, hsz, rfl, rfl, rfl⟩

/-- The `finally` clause leaves `loading` false whatever the outcome. -/
lemma handleAnalyzeSettle_loading (s : ComponentState) (o : HttpOutcome) :
    (handleAnalyzeSettle s o).loading = false := rfl

/-- Off the success branch, `handleAnalyzeSettle` leaves `result` unchanged. -/
lemma handleAnalyzeSettle_result_error (s : ComponentState) (status : ℕ)
    (detail : Option String) :
    (handleAnalyzeSettle s (.httpError status detail)).result = s.result := by
  unfold handleAnalyzeSettle
  dsimp only
  split_ifs <;> rfl

/-- The in-flight state for a dispatch from `stateWith (some smallFile)`. -/
def inflightSmall : ComponentState :=
  { stateWith (some smallFile) with loading := true, error := none }

/-- The request dispatched from `stateWith (some smallFile)`. -/
def reqSmall : AnalyzeRequest :=
  { path := "/analyze", file := smallFile, topic := "General Teaching" }

/-- On the concrete one-megabyte file the pre-check passes and the POST is
dispatched. -/
lemma handleAnalyzeStart_small :
    handleAnalyzeStart (stateWith (some smallFile)) = Sum.inr (inflightSmall, reqSmall) := by
  norm_num [handleAnalyzeStart, stateWith, fileSizeMB, smallFile, MAX_FILE_SIZE_MB,
    inflightSmall, reqSmall]

/-- The pacing curve never goes below 0. -/
lemma pacingScore_nonneg (p : ℚ) : 0 ≤ pacingScore p := by
  unfold pacingScore
  split_ifs with h1 h2 h3 h4
  · norm_num
  · exact div_nonneg (by linarith) (by norm_num)
  · norm_num
  · exact div_nonneg (by linarith) (by norm_num)
  · norm_num

/-! ## C9 — empty-file guard -/

/-- C9: with no file selected, `handleAnalyze` returns before doing anything:
no request is dispatched and every piece of component state is unchanged. -/
theorem handleAnalyze_no_file_noop (s : ComponentState) (o : HttpOutcome)
    (h : s.file = none) :
    handleAnalyze s o = (s, none) := by
  unfold handleAnalyze handleAnalyzeStart
  rw [h]

/-- C9 witness: the guard at a concrete fileless state and outcome. -/
theorem handleAnalyze_no_file_noop_witness :
    handleAnalyze (stateWith none) .networkError = (stateWith none, none) :=
  handleAnalyze_no_file_noop (stateWith none) .networkError rfl

/-! ## C10 — loading flag lifecycle -/

/-- C10: whenever `handleAnalyze` dispatches a request, the in-flight state has
`loading = true`, and however the request settles — success, HTTP error,
network error, or any other error — the `finally` clause leaves
`loading = false`, so the UI cannot stay stuck loading after the request
completes. -/
theorem loading_true_then_reset (s sIn : ComponentState) (req : AnalyzeRequest)
    (h : handleAnalyzeStart s = Sum.inr (sIn, req)) :
    sIn.loading = true ∧
      ∀ o : HttpOutcome, (handleAnalyzeSettle sIn o).loading = false ∧
        handleAnalyze s o = (handleAnalyzeSettle sIn o, some req) := by
  obtain ⟨hf, hsz, hsIn, hpath, htopic⟩ := handleAnalyzeStart_inr_inv s sIn req h
  refine ⟨by rw [hsIn], fun o => ⟨handleAnalyzeSettle_loading sIn o, ?_⟩⟩
  unfold handleAnalyze
  rw [h]

/-- C10 witness: the loading lifecycle on a concrete dispatched request that
settles with a network error. -/
theorem loading_true_then_reset_witness :
    (handleAnalyzeSettle inflightSmall .networkError).loading = false :=
  ((loading_true_then_reset (stateWith (some smallFile)) inflightSmall reqSmall
      handleAnalyzeStart_small).2 .networkError).1

/-! ## C3 — pace advisory boundary -/

/-- C3 counterexample: in the §8 scenario with `pace_bpm = 150` the
"slow down pace" advisory is NOT emitted — the claim says it is. The guard is
the strict comparison `(pace_bpm ?? 0) > 150`, and `150 > 150` is false. -/
theorem pace_advisory_at_150_not_emitted :
    paceAdvisoryShown (scenarioResult 150) = false := by
  norm_num [paceAdvisoryShown, displayScore, paceBpmOf, scenarioResult]

/-- C3 amended: the advisory's emission condition is the strict boundary
`pace_bpm > 150`, so in the scenario with `pace_bpm = 150` the advisory is not
emitted, at 151 it is, and in general it shows exactly when the displayed pace
exceeds 150. -/
theorem pace_advisory_strict_boundary :
    paceAdvisoryShown (scenarioResult 150) = false ∧
      paceAdvisoryShown (scenarioResult 151) = true ∧
      ∀ r : AnalysisResult,
        (paceAdvisoryShown r = true ↔ displayScore (paceBpmOf r) > 150) := by
  refine ⟨?_, ?_, fun r => ?_⟩
  · norm_num [paceAdvisoryShown, displayScore, paceBpmOf, scenarioResult]
  · norm_num [paceAdvisoryShown, displayScore, paceBpmOf, scenarioResult]
  · simp [paceAdvisoryShown]

/-- C3 witness: the boundary theorem instantiated at a concrete response whose
pace is 151, discharging the guard condition there. -/
theorem pace_advisory_strict_boundary_witness :
    paceAdvisoryShown (scenarioResult 151) = true :=
  (pace_advisory_strict_boundary.2.2 (scenarioResult 151)).mpr
    (by norm_num [displayScore, paceBpmOf, scenarioResult])

/-! ## C8 — fallback texts versus empty lists -/

/-- C8: the "no specific strengths" (resp. "keep up the great work") fallback
`<li>` is rendered exactly when the `key_strengths` (resp. `missing_concepts`)
field is absent from the response; a present-but-empty list renders neither
items nor fallback, because an empty JavaScript array is truthy and short-circuits
the `|| fallback` branch. -/
theorem fallback_rendered_iff_field_absent :
    (∀ r : AnalysisResult,
       (RenderedLi.noStrengthsFallback ∈ renderKeyStrengths r ↔ keyStrengthsOf r = none) ∧
       (keyStrengthsOf r = some [] → renderKeyStrengths r = []) ∧
       ∀ xs : List String, keyStrengthsOf r = some xs →
         renderKeyStrengths r = xs.map RenderedLi.strengthLi) ∧
    ∀ r : AnalysisResult,
      (RenderedLi.keepUpFallback ∈ renderMissingConcepts r ↔ missingConceptsOf r = none) ∧
      (missingConceptsOf r = some [] → renderMissingConcepts r = []) ∧
      ∀ xs : List String, missingConceptsOf r = some xs →
        renderMissingConcepts r = xs.map RenderedLi.conceptLi := by
  constructor
  · intro r
    cases h : keyStrengthsOf r with
    | none => simp [renderKeyStrengths, jsListOrFallback, h]
    | some xs => simp [renderKeyStrengths, jsListOrFallback, h, List.mem_map]
  · intro r
    cases h : missingConceptsOf r with
    | none => simp [renderMissingConcepts, jsListOrFallback, h]
    | some xs => simp [renderMissingConcepts, jsListOrFallback, h, List.mem_map]

/-- C8 witness: the scenario response carries `key_strengths = []`, and the
strengths list renders neither items nor the fallback there. -/
theorem fallback_rendered_iff_field_absent_witness :
    renderKeyStrengths (scenarioResult 150) = [] :=
  ((fallback_rendered_iff_field_absent.1 (scenarioResult 150)).2.1) rfl

/-! ## C2 — acoustic pacing normalization -/

/-- C2: the pacing normalization returns exactly 10 on the optimal band
`[100,140]`, is strictly increasing from 60 up to the band and strictly
decreasing from the band down to 180 (so strictly decreasing as the pace moves
outside the band), reaches 0 at 60 and at 180 BPM, and a `silence_ratio` of 0
never reduces the pacing score. -/
theorem pacing_normalization_band :
    (∀ p : ℚ, 100 ≤ p → p ≤ 140 → pacingScore p = 10) ∧
      (∀ a b : ℚ, 60 ≤ a → a < b → b ≤ 100 → pacingScore a < pacingScore b) ∧
      (∀ a b : ℚ, 140 ≤ a → a < b → b ≤ 180 → pacingScore b < pacingScore a) ∧
      pacingScore 60 = 0 ∧ pacingScore 180 = 0 ∧
      ∀ m : AcousticMetrics, m.silence_ratio = 0 →
        acousticScore m = pacingScore m.pace_bpm := by
  refine ⟨fun p h1 h2 => ?_, fun a b ha hab hb => ?_, fun a b ha hab hb => ?_, ?_, ?_,
    fun m hm => ?_⟩
  · unfold pacingScore
    split_ifs <;> first | rfl | linarith
  · unfold pacingScore
    split_ifs <;> linarith
  · unfold pacingScore
    split_ifs <;> linarith
  · norm_num [pacingScore]
  · norm_num [pacingScore]
  · rw [acousticScore, hm, silencePenalty]
    rw [mul_zero, sub_zero]
    exact max_eq_right (pacingScore_nonneg m.pace_bpm)

/-- C2 witness: the band, the strict decay on both sides, the endpoints, and
the silence-free acoustic score, each at a concrete pace. -/
theorem pacing_normalization_band_witness :
    pacingScore 120 = 10 ∧ pacingScore 70 < pacingScore 90 ∧
      pacingScore 170 < pacingScore 150 ∧
      acousticScore { pace_bpm := 150, silence_ratio := 0, pitch_variability := 2 }
        = pacingScore 150 :=
  ⟨pacing_normalization_band.1 120 (by norm_num) (by norm_num),
   pacing_normalization_band.2.1 70 90 (by norm_num) (by norm_num) (by norm_num),
   pacing_normalization_band.2.2.1 150 170 (by norm_num) (by norm_num) (by norm_num),
   pacing_normalization_band.2.2.2.2.2 _ rfl⟩

/-! ## C4 — renormalized weighted mean with one pipeline missing -/

/-- C4: whenever exactly one pipeline is missing, the aggregate is the weighted
mean of the two present sub-scores over their renormalized weights — the
missing weight appears in neither numerator nor denominator — and with the
default weights a missing Visual pipeline yields the simple average of the
Content and Acoustic sub-scores. -/
theorem overall_renormalized_one_missing (w : Weights) (os : Outcomes) :
    (∀ c a : ℚ, subScore os .content = some c → subScore os .acoustic = some a →
        subScore os .visual = none →
        aggregate w os = some ((w.content * c + w.acoustic * a) / (w.content + w.acoustic)) ∧
        aggregate defaultWeights os = some ((c + a) / 2)) ∧
    (∀ c v : ℚ, subScore os .content = some c → subScore os .visual = some v →
        subScore os .acoustic = none →
        aggregate w os = some ((w.content * c + w.visual * v) / (w.content + w.visual))) ∧
    ∀ a v : ℚ, subScore os .acoustic = some a → subScore os .visual = some v →
      subScore os .content = none →
      aggregate w os = some ((w.acoustic * a + w.visual * v) / (w.acoustic + w.visual)) := by
  refine ⟨fun c a hc ha hv => ⟨?_, ?_⟩, fun c v hc hv ha => ?_, fun a v ha hv hc => ?_⟩
  · have hps : presentPairs w os = [(w.content, c), (w.acoustic, a)] := by
      simp [presentPairs, kinds, hc, ha, hv, Weights.get]
    simp [aggregate, hps]
  · have hps : presentPairs defaultWeights os
        = [(defaultWeights.content, c), (defaultWeights.acoustic, a)] := by
      simp [presentPairs, kinds, hc, ha, hv, Weights.get]
    simp only [aggregate, hps, List.isEmpty_cons, List.map_cons, List.map_nil,
      List.sum_cons, List.sum_nil, if_false, Bool.false_eq_true]
    rw [defaultWeights]
    norm_num
    ring_nf
  · have hps : presentPairs w os = [(w.content, c), (w.visual, v)] := by
      simp [presentPairs, kinds, hc, ha, hv, Weights.get]
    simp [aggregate, hps]
  · have hps : presentPairs w os = [(w.acoustic, a), (w.visual, v)] := by
      simp [presentPairs, kinds, hc, ha, hv, Weights.get]
    simp [aggregate, hps]

/-- C4 witness: Content and Acoustic present (sub-scores 8 and 10), Visual
timed out; the aggregate under the default weights is their simple average, 9. -/
theorem overall_renormalized_one_missing_witness :
    aggregate defaultWeights exOutcomesOneMissing = some 9 := by
  have h := ((overall_renormalized_one_missing defaultWeights exOutcomesOneMissing).1 8 10
    (by norm_num [subScore, normalizeWith, exOutcomesOneMissing, contentScore, clampScore,
      min_def, max_def])
    (by norm_num [subScore, normalizeWith, exOutcomesOneMissing, acousticScore, pacingScore,
      silencePenalty, max_def])
    rfl).2
  rw [h]
  norm_num

/-! ## C1 — missing sub-scores stay absent through aggregation -/

/-- C1: a pipeline whose outcome is `Failed` or `TimedOut` gets the distinct
absent sub-score (`none`) and its kind joins the missing set; everything the
Aggregator sums is a genuinely present sub-score paired with its own weight
(never a coerced 0); and the only 0-defaulting lives in the presentation
layer's `?? 0` display default. -/
theorem missing_subscore_absent_until_display :
    (∀ (os : Outcomes) (k : PipelineKind),
        outcomeAbsent os k = true → subScore os k = none ∧ k ∈ missingKinds os) ∧
      (∀ (w : Weights) (os : Outcomes) (p : ℚ × ℚ), p ∈ presentPairs w os →
        ∃ k : PipelineKind, ∃ q : ℚ, subScore os k = some q ∧ p = (w.get k, q)) ∧
      displayScore none = 0 ∧ ∀ q : ℚ, displayScore (some q) = q := by
  refine ⟨fun os k hk => ?_, fun w os p hp => ?_, rfl, fun q => rfl⟩
  · obtain ⟨oc, oa, ov⟩ := os
    cases k with
    | content =>
        cases oc <;> simp_all [outcomeAbsent, Outcome.isAbsent, subScore, normalizeWith,
          missingKinds, kinds]
    | acoustic =>
        cases oa <;> simp_all [outcomeAbsent, Outcome.isAbsent, subScore, normalizeWith,
          missingKinds, kinds]
    | visual =>
        cases ov <;> simp_all [outcomeAbsent, Outcome.isAbsent, subScore, normalizeWith,
          missingKinds, kinds]
  · simp only [presentPairs, List.mem_filterMap] at hp
    obtain ⟨k, _, hkp⟩ := hp
    rw [Option.map_eq_some'] at hkp
    obtain ⟨q, hq, hpq⟩ := hkp
    exact ⟨k, q, hq, hpq.symm⟩

/-- C1 witness: with the Acoustic pipeline failed, its sub-score is the absent
state and `acoustic` is in the missing set. -/
theorem missing_subscore_absent_until_display_witness :
    subScore exOutcomesFailed .acoustic = none ∧
      PipelineKind.acoustic ∈ missingKinds exOutcomesFailed :=
  missing_subscore_absent_until_display.1 exOutcomesFailed .acoustic rfl

/-! ## C5 — oversized payloads rejected before any analysis -/

/-- C5: an oversized payload never reaches orchestration. In the frontend, a
file above `MAX_FILE_SIZE_MB` makes `handleAnalyze` set the size-limit error
and return with no request dispatched; in the (spec-modelled) backend, a
payload above the limit is answered with 413 and the orchestration flag stays
false. -/
theorem oversized_payload_rejected_before_orchestration :
    (∀ (s : ComponentState) (f : JsFile) (o : HttpOutcome),
        s.file = some f → fileSizeMB f > MAX_FILE_SIZE_MB →
        handleAnalyze s o = ({ s with error := some (fileTooLargeMsg f) }, none)) ∧
      ∀ (limit payload : ℕ) (os : Outcomes), payload > limit →
        analyzeEndpoint limit payload os
          = (.err 413 "payload exceeds size limit", false) := by
  refine ⟨fun s f o hf hsz => ?_, fun limit payload os h => ?_⟩
  · obtain ⟨fo, prev, load, res, err⟩ := s
    obtain rfl : fo = some f := hf
    simp [handleAnalyze, handleAnalyzeStart, hsz]
  · simp [analyzeEndpoint, h]

/-- C5 witness: a 31 MB file is stopped by the pre-check with no request, and
a 33-byte payload against a 32-byte limit draws the 413 with no orchestration. -/
theorem oversized_payload_rejected_witness :
    handleAnalyze (stateWith (some bigFile)) .networkError
        = ({ stateWith (some bigFile) with error := some (fileTooLargeMsg bigFile) }, none) ∧
      analyzeEndpoint 32 33 exOutcomesFailed
        = (.err 413 "payload exceeds size limit", false) :=
  ⟨oversized_payload_rejected_before_orchestration.1 (stateWith (some bigFile)) bigFile
      .networkError rfl (by norm_num [fileSizeMB, bigFile, MAX_FILE_SIZE_MB]),
   oversized_payload_rejected_before_orchestration.2 32 33 exOutcomesFailed (by norm_num)⟩

/-! ## C6 — the topic form field -/

/-- C6: every request `handleAnalyze` puts on the wire posts to `/analyze` and
carries the topic field `"General Teaching"` (the frontend offers no topic
input, so the user never supplies one); the spec-modelled backend default for
an absent topic is the same string. -/
theorem analyze_topic_defaults_general_teaching :
    (∀ (s : ComponentState) (o : HttpOutcome) (s' : ComponentState) (req : AnalyzeRequest),
        handleAnalyze s o = (s', some req) →
        req.topic = "General Teaching" ∧ req.path = "/analyze") ∧
      topicOrDefault none = "General Teaching" ∧
      ∀ t : String, topicOrDefault (some t) = t := by
  refine ⟨fun s o s' req h => ?_, rfl, fun t => rfl⟩
  unfold handleAnalyze at h
  cases hst : handleAnalyzeStart s with
  | inl s0 => rw [hst] at h; simp at h
  | inr pr =>
      obtain ⟨sIn, req0⟩ := pr
      rw [hst] at h
      simp only [Prod.mk.injEq, Option.some.injEq] at h
      obtain ⟨-, hreq⟩ := h
      obtain ⟨-, -, -, hpath, htopic⟩ := handleAnalyzeStart_inr_inv s sIn req0 hst
      rw [← hreq]
      exact ⟨htopic, hpath⟩

/-- C6 witness: the request dispatched from a concrete state carries the
default topic. -/
theorem analyze_topic_defaults_general_teaching_witness :
    reqSmall.topic = "General Teaching" ∧ reqSmall.path = "/analyze" :=
  analyze_topic_defaults_general_teaching.1 (stateWith (some smallFile)) .networkError
    (handleAnalyzeSettle inflightSmall .networkError) reqSmall
    (by unfold handleAnalyze; rw [handleAnalyzeStart_small])

/-! ## C7 — degraded-but-scored versus failed-outright -/

/-- C7: once a request is dispatched, a 200 stores the result and leaves no
error, while every non-200 response sets an error message — dedicated and
mutually distinct texts for 413 and for 503/504, and otherwise a generic
message built from the body's `detail` — and leaves `result` exactly as it
was, so a caller can always tell a degraded score from a failed request. -/
theorem error_paths_distinguished_from_success (s sIn : ComponentState)
    (req : AnalyzeRequest) (h : handleAnalyzeStart s = Sum.inr (sIn, req)) :
    (∀ data : AnalysisResult,
        (handleAnalyzeSettle sIn (.ok data)).result = some data ∧
        (handleAnalyzeSettle sIn (.ok data)).error = none) ∧
      (∀ detail : Option String,
        (handleAnalyzeSettle sIn (.httpError 413 detail)).error = some uploadTooLarge413Msg ∧
        (handleAnalyzeSettle sIn (.httpError 413 detail)).result = s.result) ∧
      (∀ (status : ℕ) (detail : Option String), status = 503 ∨ status = 504 →
        (handleAnalyzeSettle sIn (.httpError status detail)).error = some serverTimeoutMsg ∧
        (handleAnalyzeSettle sIn (.httpError status detail)).result = s.result) ∧
      (∀ (status : ℕ) (detail : Option String),
        status ≠ 413 → ¬(status = 503 ∨ status = 504) →
        (handleAnalyzeSettle sIn (.httpError status detail)).error
            = some (serverErrorMsg status detail) ∧
        (handleAnalyzeSettle sIn (.httpError status detail)).result = s.result) ∧
      uploadTooLarge413Msg ≠ serverTimeoutMsg := by
  obtain ⟨-, -, hsIn, -, -⟩ := handleAnalyzeStart_inr_inv s sIn req h
  subst hsIn
  refine ⟨fun data => ⟨rfl, rfl⟩, fun detail => ⟨?_, ?_⟩,
    fun status detail hst => ⟨?_, ?_⟩, fun status detail h413 h5034 => ⟨?_, ?_⟩, by decide⟩
  · simp [handleAnalyzeSettle]
  · exact handleAnalyzeSettle_result_error _ 413 detail
  · rcases hst with rfl | rfl <;> simp [handleAnalyzeSettle]
  · exact handleAnalyzeSettle_result_error _ status detail
  · simp [handleAnalyzeSettle, h413, h5034]
  · exact handleAnalyzeSettle_result_error _ status detail

/-- C7 witness: after a concrete dispatch, a 503 settles to the dedicated
timeout message. -/
theorem error_paths_distinguished_witness :
    (handleAnalyzeSettle inflightSmall (.httpError 503 (some "deadline exceeded"))).error
      = some serverTimeoutMsg :=
  ((error_paths_distinguished_from_success (stateWith (some smallFile)) inflightSmall
      reqSmall handleAnalyzeStart_small).2.2.1 503 (some "deadline exceeded") (Or.inl rfl)).1

end MentorX
